import Mathlib

/-!
Shallow embedding of `src/xenia/base/main_win.cc` (the host-process
bootstrap sequencer of the xenia repository).

Ambient OS state (the raw command line as tokenized by
`CommandLineToArgvW`, the locale's multibyte conversion, the result of
`::AttachConsole(ATTACH_PARENT_PROCESS)`, the `SHELL` environment
variable, the CPU's AVX capability, and the availability and values of
the NT timer-resolution facilities) is modelled as an explicit
environment record `OSEnv`.  External subsystem calls whose bodies are
outside this translation unit (`CoInitializeEx`, `xe::InitializeLogging`,
`xe::ShutdownLogging`, `cvar::ParseLaunchArguments`, the version banner)
are modelled as emitted events; `Main` returns its outcome together with
the ordered event trace and the final value of the process-wide
`has_console_attached_` flag.
-/

namespace Xenia

/-- A wide (UTF-16 / `wchar_t`) token, as one element of the `wargv`
array produced by `CommandLineToArgvW`: a list of wide code units. -/
abbrev WTok := List Nat

/-- `xe::EntryInfo` (consumed from `xenia/base/main.h`): the Entry
Descriptor supplied by the application. -/
structure EntryInfo where
  name : String
  transparent_options : Bool
  positional_usage : Option String
  positional_options : Option (List String)
  entry_point : List (List Nat) → Int

/-- The configuration options defined in this translation unit by
`DEFINE_bool`: `win32_high_freq` defaults to `true`,
`enable_console` defaults to `false`. -/
structure Cvars where
  win32_high_freq : Bool := true
  enable_console : Bool := false

/-- The `Cvars` record holding the `DEFINE_bool` default values. -/
def defaultCvars : Cvars := {}

/-- Ambient OS state read by the bootstrap sequencer. -/
structure OSEnv where
  /-- Result of `CommandLineToArgvW` on `GetCommandLineW()`:
  `none` models a null `wargv` pointer. -/
  cmdTokens : Option (List WTok)
  /-- The current locale's multibyte conversion of one wide character,
  as used by `std::wcstombs`. -/
  encodeChar : Nat → List Nat
  /-- Whether `::AttachConsole(ATTACH_PARENT_PROCESS)` returns `TRUE`. -/
  attachParentOk : Bool
  /-- Result of `getenv_s` on `"SHELL"`: `none` models a nonzero error
  return, `some size` the reported required buffer size
  (`0` when the variable is absent). -/
  shellVarSize : Option Nat
  /-- Whether `Xbyak::util::Cpu` reports the `tAVX` capability. -/
  cpuHasAVX : Bool
  /-- Whether `GetProcAddress` finds `NtQueryTimerResolution` in ntdll. -/
  ntQueryAvail : Bool
  /-- Whether `GetProcAddress` finds `NtSetTimerResolution` in ntdll. -/
  ntSetAvail : Bool
  /-- Minimum (coarsest) timer resolution reported by the kernel. -/
  timerMin : Nat
  /-- Maximum (finest) timer resolution reported by the kernel. -/
  timerMax : Nat
  /-- Current timer resolution reported by the kernel. -/
  timerCur : Nat

/-- Observable events of one bootstrap run, in program order. -/
inductive Event where
  /-- The `CommandLineToArgvW` call. -/
  | commandLineToArgv
  /-- The `cvar::ParseLaunchArguments` call. -/
  | parseOptions
  /-- The `::AttachConsole(ATTACH_PARENT_PROCESS)` call. -/
  | attachParent
  /-- The `AllocConsole()` call. -/
  | allocConsole
  /-- Rebinding `stdout` to `CONOUT$`. -/
  | rebindStdout
  /-- Rebinding `stderr` to `CONOUT$`. -/
  | rebindStderr
  /-- The `CoInitializeEx` call. -/
  | comInit
  /-- The `xe::InitializeLogging` call with the Entry Descriptor name. -/
  | logInit (name : String)
  /-- The `xe::FatalError` call with its diagnostic message. -/
  | fatalReport (msg : String)
  /-- The `XELOGI` build/version banner. -/
  | logVersion
  /-- The `NtQueryTimerResolution` call with the values it reports. -/
  | timerQuery (minR maxR curR : Nat)
  /-- The `NtSetTimerResolution` call with the requested resolution. -/
  | timerSet (desired : Nat)
  /-- The invocation of the Entry Descriptor's callable with the final
  Token Sequence. -/
  | entryCall (args : List (List Nat))
  /-- The `xe::ShutdownLogging` call. -/
  | logShutdown
  deriving DecidableEq, Repr

/-- Bytes produced by the locale conversion of a whole wide token,
not counting the terminating null (`std::wcstombs` semantics). -/
def wideBytes (env : OSEnv) : WTok → List Nat
  | [] => []
  | c :: cs => env.encodeChar c ++ wideBytes env cs

/-- `std::wcstombs(nullptr, w, 0)`: the measuring call, returning the
number of converted bytes excluding the terminating null. -/
def wcstombsMeasure (env : OSEnv) (w : WTok) : Nat :=
  (wideBytes env w).length

/-- `std::wcstombs(dst, w, n)`: writes at most `n` bytes of the
conversion of `w` followed by its terminating null. -/
def wcstombsWrite (env : OSEnv) (w : WTok) (n : Nat) : List Nat :=
  (wideBytes env w ++ [0]).take n

/-- The per-token conversion performed by `parse_launch_arguments`:
measure with a null destination, allocate `len + 1` bytes, convert with
limit `len + 1`. -/
def convertToken (env : OSEnv) (w : WTok) : List Nat :=
  wcstombsWrite env w (wcstombsMeasure env w + 1)

/-- Reading the converted buffer back as a C string
(`std::string(argv[n])` stops at the first null byte). -/
def cString (l : List Nat) : List Nat :=
  l.takeWhile (fun b => b ≠ 0)

/-- The narrow token pushed into `args` for one wide token. -/
def narrowToken (env : OSEnv) (w : WTok) : List Nat :=
  cString (convertToken env w)

/-- How `parse_launch_arguments` can fail to produce a token sequence. -/
inductive ParseError where
  /-- `CommandLineToArgvW` returned null: the function returns `false`. -/
  | argvNull
  /-- `std::optional::value()` called on an empty optional
  (`std::bad_optional_access` propagates out of `Main`). -/
  | optionalPanic
  deriving DecidableEq, Repr

/-- `parse_launch_arguments`: obtains and tokenizes the raw command
line, converts every token to narrow encoding, runs option parsing
unless `transparent_options` is set, and fills `args`.  Returns the
result together with the events it emitted. -/
def parse_launch_arguments (env : OSEnv) (entry_info : EntryInfo) :
    Except ParseError (List (List Nat)) × List Event :=
  match env.cmdTokens with
  | none => (.error .argvNull, [.commandLineToArgv])
  | some wargv =>
    let args := wargv.map (narrowToken env)
    if entry_info.transparent_options then
      (.ok args, [.commandLineToArgv])
    else
      match entry_info.positional_usage, entry_info.positional_options with
      | some _, some _ => (.ok args, [.commandLineToArgv, .parseOptions])
      | _, _ => (.error .optionalPanic, [.commandLineToArgv])

/-- `has_shell_environment_variable`: `getenv_s` on `"SHELL"`; a nonzero
error return yields `false`, otherwise the reported size is tested. -/
def has_shell_environment_variable (env : OSEnv) : Bool :=
  match env.shellVarSize with
  | none => false
  | some size => size != 0

/-- `xe::AttachConsole`: attempts to attach to the parent's console;
on failure of that attempt or absence of the `SHELL` variable it records
the headless state and returns, otherwise it allocates a console,
records attachment, and rebinds `stdout` and `stderr`.  Returns the new
value of `has_console_attached_` with the emitted events. -/
def AttachConsole (env : OSEnv) : Bool × List Event :=
  let has_console := env.attachParentOk
  if !has_console || !has_shell_environment_variable env then
    (false, [.attachParent])
  else
    (true, [.attachParent, .allocConsole, .rebindStdout, .rebindStderr])

/-- `RequestHighPerformance`: looks up the two NT timer facilities; if
either is missing it returns silently, otherwise it queries the
minimum/maximum/current resolutions and requests the maximum (finest)
one process-wide. -/
def RequestHighPerformance (env : OSEnv) : List Event :=
  if !env.ntQueryAvail || !env.ntSetAvail then
    []
  else
    [.timerQuery env.timerMin env.timerMax env.timerCur,
     .timerSet env.timerMax]

/-- Modelled from the spec: the body of `xe::FatalError` is declared in
`xenia/base/logging.h` and implemented outside this translation unit.
Per the spec it reports a user-facing fatal error with remediation
guidance; the Sequencer itself then terminates with the distinct
negative exit status by returning from `Main`.  Modelled as the emission
of one fatal-report event. -/
def FatalError (msg : String) : List Event :=
  [.fatalReport msg]

/-- The diagnostic passed to `xe::FatalError` when AVX is absent. -/
def fatalAvxMsg : String :=
  "Your CPU does not support AVX, which is required by Xenia. See the FAQ for system requirements at https://xenia.jp"

/-- How a run of `Main` ends. -/
inductive MainOutcome where
  /-- `Main` returned this exit code. -/
  | exit (code : Int)
  /-- An uncaught `std::bad_optional_access` propagated out of `Main`. -/
  | panic
  deriving DecidableEq, Repr

/-- The observable result of one run of `Main`: its outcome, the event
trace in program order, and the final value of the process-wide
`has_console_attached_` flag (initialized to `true` at line 37). -/
structure MainResult where
  outcome : MainOutcome
  trace : List Event
  has_console_attached : Bool
  deriving DecidableEq, Repr

/-- `xe::Main`: the Bootstrap Sequencer.  Marshals arguments (exit code
1 on failure), optionally negotiates the console, initializes COM and
logging, gates on the AVX capability (fatal report and exit code -1 on
absence), emits the version banner, optionally negotiates timer
resolution, invokes the entry point with the token sequence, shuts down
logging, and returns the entry point's value. -/
def Main (cv : Cvars) (env : OSEnv) (entry_info : EntryInfo) : MainResult :=
  match parse_launch_arguments env entry_info with
  | (.error .optionalPanic, pevents) =>
    { outcome := .panic, trace := pevents, has_console_attached := true }
  | (.error .argvNull, pevents) =>
    { outcome := .exit 1, trace := pevents, has_console_attached := true }
  | (.ok args, pevents) =>
    let cpair := if cv.enable_console then AttachConsole env else (true, [])
    let ev1 := pevents ++ cpair.2 ++ [.comInit, .logInit entry_info.name]
    if !env.cpuHasAVX then
      { outcome := .exit (-1), trace := ev1 ++ FatalError fatalAvxMsg,
        has_console_attached := cpair.1 }
    else
      let ev2 := ev1 ++ [.logVersion] ++
        (if cv.win32_high_freq then RequestHighPerformance env else [])
      let result := entry_info.entry_point args
      { outcome := .exit result,
        trace := ev2 ++ [.entryCall args, .logShutdown],
        has_console_attached := cpair.1 }

/-- Recognizes entry-point invocation events. -/
def isEntryCall : Event → Bool
  | .entryCall _ => true
  | _ => false

/-- Recognizes timer negotiation events (query or set). -/
def isTimerEvent : Event → Bool
  | .timerQuery _ _ _ => true
  | .timerSet _ => true
  | _ => false

/-- Recognizes fatal-report events. -/
def isFatalReport : Event → Bool
  | .fatalReport _ => true
  | _ => false

/-- Recognizes logging-initialization events. -/
def isLogInit : Event → Bool
  | .logInit _ => true
  | _ => false

/-- Recognizes logging-shutdown events. -/
def isLogShutdown : Event → Bool
  | .logShutdown => true
  | _ => false

/-- Recognizes console negotiation events (any event emitted only by
`AttachConsole`). -/
def isConsoleEvent : Event → Bool
  | .attachParent => true
  | .allocConsole => true
  | .rebindStdout => true
  | .rebindStderr => true
  | _ => false

/-! Concrete fixtures used to instantiate theorems at explicit inputs. -/

/-- A one-byte-per-wide-character locale conversion. -/
def idEncode : Nat → List Nat := fun c => [c]

/-- A fully healthy launch environment: a two-token command line
(`"p.e --f"`-style), a shell launch, AVX present, NT timer facilities
present. -/
def envOk : OSEnv :=
  { cmdTokens := some [[112, 46, 101], [45, 45, 102]]
    encodeChar := idEncode
    attachParentOk := true
    shellVarSize := some 10
    cpuHasAVX := true
    ntQueryAvail := true
    ntSetAvail := true
    timerMin := 156250
    timerMax := 5000
    timerCur := 156250 }

/-- A standard Entry Descriptor with populated positional optionals. -/
def eiStd : EntryInfo :=
  { name := "xenia"
    transparent_options := false
    positional_usage := some "usage"
    positional_options := some ["target"]
    entry_point := fun args => (args.length : Int) }

/-! Shape lemmas shared by several claims. -/

/-- The events emitted by `parse_launch_arguments` are always the
`CommandLineToArgvW` call, possibly followed by the option-parsing
call. -/
lemma parse_events_cases (env : OSEnv) (ei : EntryInfo) :
    (parse_launch_arguments env ei).2 = [.commandLineToArgv] ∨
    (parse_launch_arguments env ei).2 = [.commandLineToArgv, .parseOptions] := by
  unfold parse_launch_arguments
  rcases env.cmdTokens with _ | ws
  · simp
  · by_cases ht : ei.transparent_options
    · simp [ht]
    · rcases ei.positional_usage with _ | u <;>
        rcases ei.positional_options with _ | o <;> simp [ht]

/-- The events of `parse_launch_arguments` contain no timer, console,
logging, fatal, or entry-point events. -/
lemma parse_events_countP (env : OSEnv) (ei : EntryInfo) (p : Event → Bool)
    (h1 : p .commandLineToArgv = false) (h2 : p .parseOptions = false) :
    ((parse_launch_arguments env ei).2).countP p = 0 := by
  rcases parse_events_cases env ei with h | h <;>
    simp [h, List.countP_cons, List.countP_nil, h1, h2]

/-- When `CommandLineToArgvW` succeeds and `transparent_options` is
set, option parsing is bypassed and the converted tokens are returned. -/
lemma parse_full_transparent (env : OSEnv) (ei : EntryInfo) (ws : List WTok)
    (h : env.cmdTokens = some ws) (ht : ei.transparent_options = true) :
    parse_launch_arguments env ei =
      (.ok (ws.map (narrowToken env)), [.commandLineToArgv]) := by
  unfold parse_launch_arguments
  rw [h]
  simp [ht]

/-- When `CommandLineToArgvW` succeeds, `transparent_options` is unset
and both positional optionals are populated, option parsing runs and the
converted tokens are returned. -/
lemma parse_full_opts (env : OSEnv) (ei : EntryInfo) (ws : List WTok)
    (u : String) (o : List String)
    (h : env.cmdTokens = some ws) (ht : ei.transparent_options = false)
    (hu : ei.positional_usage = some u) (ho : ei.positional_options = some o) :
    parse_launch_arguments env ei =
      (.ok (ws.map (narrowToken env)), [.commandLineToArgv, .parseOptions]) := by
  unfold parse_launch_arguments
  rw [h]
  simp [ht, hu, ho]

/-- Any successful parse yields exactly the converted token sequence. -/
lemma parse_ok_of (env : OSEnv) (ei : EntryInfo) (ws : List WTok)
    (h : env.cmdTokens = some ws)
    (hopt : ei.transparent_options = true ∨
      (ei.positional_usage.isSome ∧ ei.positional_options.isSome)) :
    (parse_launch_arguments env ei).1 = .ok (ws.map (narrowToken env)) := by
  rcases hopt with ht | ⟨hu, ho⟩
  · rw [parse_full_transparent env ei ws h ht]
  · by_cases ht : ei.transparent_options
    · rw [parse_full_transparent env ei ws h ht]
    · rcases hu' : ei.positional_usage with _ | u
      · rw [hu'] at hu; simp at hu
      · rcases ho' : ei.positional_options with _ | o
        · rw [ho'] at ho; simp at ho
        · rw [parse_full_opts env ei ws u o h (by simpa using ht) hu' ho']

/-- The events emitted by `AttachConsole` are the attach attempt alone,
or the attach attempt followed by allocation and the two rebinds. -/
lemma attach_events_cases (env : OSEnv) :
    (AttachConsole env).2 = [.attachParent] ∨
    (AttachConsole env).2 =
      [.attachParent, .allocConsole, .rebindStdout, .rebindStderr] := by
  unfold AttachConsole
  by_cases h : (!env.attachParentOk || !has_shell_environment_variable env) = true
  · simp [h]
  · simp [h]

/-- The events of `AttachConsole` contain no timer, logging, fatal, or
entry-point events. -/
lemma attach_events_countP (env : OSEnv) (p : Event → Bool)
    (h1 : p .attachParent = false) (h2 : p .allocConsole = false)
    (h3 : p .rebindStdout = false) (h4 : p .rebindStderr = false) :
    ((AttachConsole env).2).countP p = 0 := by
  rcases attach_events_cases env with h | h <;>
    simp [h, List.countP_cons, List.countP_nil, h1, h2, h3, h4]

/-- The events of `RequestHighPerformance` are timer events only. -/
lemma timer_events_countP (env : OSEnv) (p : Event → Bool)
    (h1 : ∀ a b c, p (.timerQuery a b c) = false)
    (h2 : ∀ d, p (.timerSet d) = false) :
    (RequestHighPerformance env).countP p = 0 := by
  unfold RequestHighPerformance
  by_cases h : (!env.ntQueryAvail || !env.ntSetAvail) = true <;>
    simp [h, List.countP_cons, List.countP_nil, h1, h2]

/-- Explicit form of `Main` on the path where parsing succeeded and the
CPU has AVX. -/
lemma main_parse_ok_avx (cv : Cvars) (env : OSEnv) (ei : EntryInfo)
    (args : List (List Nat)) (pev : List Event)
    (h : parse_launch_arguments env ei = (.ok args, pev))
    (havx : env.cpuHasAVX = true) :
    Main cv env ei =
      { outcome := .exit (ei.entry_point args)
        trace := pev ++ (if cv.enable_console then (AttachConsole env).2 else [])
          ++ [.comInit, .logInit ei.name, .logVersion]
          ++ (if cv.win32_high_freq then RequestHighPerformance env else [])
          ++ [.entryCall args, .logShutdown]
        has_console_attached :=
          if cv.enable_console then (AttachConsole env).1 else true } := by
  unfold Main
  rw [h]
  by_cases hec : cv.enable_console <;> simp [hec, havx]

/-- Explicit form of `Main` on the path where parsing succeeded and the
CPU lacks AVX. -/
lemma main_parse_ok_noavx (cv : Cvars) (env : OSEnv) (ei : EntryInfo)
    (args : List (List Nat)) (pev : List Event)
    (h : parse_launch_arguments env ei = (.ok args, pev))
    (havx : env.cpuHasAVX = false) :
    Main cv env ei =
      { outcome := .exit (-1)
        trace := pev ++ (if cv.enable_console then (AttachConsole env).2 else [])
          ++ [.comInit, .logInit ei.name, .fatalReport fatalAvxMsg]
        has_console_attached :=
          if cv.enable_console then (AttachConsole env).1 else true } := by
  unfold Main
  rw [h]
  by_cases hec : cv.enable_console <;> simp [hec, havx, FatalError]

/-- When `CommandLineToArgvW` succeeds, `transparent_options` is unset
and either positional optional is empty, `std::optional::value()`
raises `std::bad_optional_access`. -/
lemma parse_full_panic (env : OSEnv) (ei : EntryInfo) (ws : List WTok)
    (h : env.cmdTokens = some ws) (ht : ei.transparent_options = false)
    (hno : ei.positional_usage = none ∨ ei.positional_options = none) :
    parse_launch_arguments env ei = (.error .optionalPanic, [.commandLineToArgv]) := by
  unfold parse_launch_arguments
  rw [h]
  rcases hno with hno | hno
  · rcases ho : ei.positional_options with _ | o <;> simp [ht, hno, ho]
  · rcases hu : ei.positional_usage with _ | u <;> simp [ht, hno, hu]

/-- Explicit form of `Main` when `CommandLineToArgvW` failed. -/
lemma main_argvNull_form (cv : Cvars) (env : OSEnv) (ei : EntryInfo)
    (pev : List Event)
    (h : parse_launch_arguments env ei = (.error .argvNull, pev)) :
    Main cv env ei = ⟨.exit 1, pev, true⟩ := by
  unfold Main
  rw [h]

/-- Explicit form of `Main` when an optional dereference panicked. -/
lemma main_panic_form (cv : Cvars) (env : OSEnv) (ei : EntryInfo)
    (pev : List Event)
    (h : parse_launch_arguments env ei = (.error .optionalPanic, pev)) :
    Main cv env ei = ⟨.panic, pev, true⟩ := by
  unfold Main
  rw [h]

/-- Once parsing succeeded, `Main` returns normally (never panics). -/
lemma main_ok_not_panic (cv : Cvars) (env : OSEnv) (ei : EntryInfo)
    (args : List (List Nat)) (pev : List Event)
    (h : parse_launch_arguments env ei = (.ok args, pev)) :
    (Main cv env ei).outcome ≠ .panic := by
  by_cases havx : env.cpuHasAVX = true
  · rw [main_parse_ok_avx cv env ei args pev h havx]
    simp
  · rw [main_parse_ok_noavx cv env ei args pev h (by simpa using havx)]
    simp

/-- C8: for every token, the wide-to-narrow conversion measures first
(`wcstombs` with a null destination), then converts into a buffer of
exactly `measured + 1` bytes; the whole conversion plus the terminating
null fits in that buffer, so nothing is truncated. -/
theorem measure_then_convert (env : OSEnv) (w : WTok) :
    convertToken env w = wcstombsWrite env w (wcstombsMeasure env w + 1) ∧
    convertToken env w = wideBytes env w ++ [0] ∧
    (convertToken env w).length = wcstombsMeasure env w + 1 := by
  have hfull : convertToken env w = wideBytes env w ++ [0] := by
    have hlen : wcstombsMeasure env w + 1 = (wideBytes env w ++ [0]).length := by
      simp [wcstombsMeasure]
    rw [convertToken, wcstombsWrite, hlen, List.take_length]
  refine ⟨rfl, hfull, ?_⟩
  rw [hfull]
  simp [wcstombsMeasure]

/-- C6: if attaching to the parent console fails or the `SHELL`
environment variable is absent, `AttachConsole` records the headless
state (`has_console_attached_ = false`), never reaches `AllocConsole`,
and emits nothing beyond the attach attempt (in particular it returns
normally rather than aborting). -/
theorem attach_console_headless (env : OSEnv)
    (h : env.attachParentOk = false ∨ has_shell_environment_variable env = false) :
    (AttachConsole env).1 = false ∧
    Event.allocConsole ∉ (AttachConsole env).2 ∧
    (AttachConsole env).2 = [.attachParent] := by
  rcases h with h | h <;> simp [AttachConsole, h]

/-- Witness for C6 at a concrete headless environment (`SHELL` absent). -/
theorem attach_console_headless_witness :
    (AttachConsole { envOk with shellVarSize := some 0 }).1 = false ∧
    Event.allocConsole ∉ (AttachConsole { envOk with shellVarSize := some 0 }).2 :=
  ⟨(attach_console_headless _ (Or.inr (by decide))).1,
   (attach_console_headless _ (Or.inr (by decide))).2.1⟩

/-- C4: when `CommandLineToArgvW` yields a null token array,
`parse_launch_arguments` returns failure and `Main` exits with code 1
having run nothing else: no console negotiation, no COM or logging
initialization, no entry-point invocation. -/
theorem argv_null_aborts (cv : Cvars) (env : OSEnv) (ei : EntryInfo)
    (h : env.cmdTokens = none) :
    (parse_launch_arguments env ei).1 = .error .argvNull ∧
    (Main cv env ei).outcome = .exit 1 ∧
    (Main cv env ei).trace = [.commandLineToArgv] ∧
    (Main cv env ei).trace.countP isConsoleEvent = 0 ∧
    Event.comInit ∉ (Main cv env ei).trace ∧
    (∀ nm, Event.logInit nm ∉ (Main cv env ei).trace) ∧
    (Main cv env ei).trace.countP isEntryCall = 0 := by
  have hp : parse_launch_arguments env ei =
      (.error .argvNull, [.commandLineToArgv]) := by
    unfold parse_launch_arguments
    rw [h]
  have hm : Main cv env ei = ⟨.exit 1, [.commandLineToArgv], true⟩ := by
    unfold Main
    rw [hp]
  rw [hp, hm]
  refine ⟨rfl, rfl, rfl, ?_, ?_, ?_, ?_⟩ <;>
    simp [isConsoleEvent, isEntryCall, List.countP_cons, List.countP_nil]

/-- Witness for C4 at a concrete environment with a null token array. -/
theorem argv_null_aborts_witness :
    (Main defaultCvars { envOk with cmdTokens := none } eiStd).outcome = .exit 1 ∧
    (Main defaultCvars { envOk with cmdTokens := none } eiStd).trace =
      [.commandLineToArgv] :=
  ⟨(argv_null_aborts defaultCvars _ eiStd rfl).2.1,
   (argv_null_aborts defaultCvars _ eiStd rfl).2.2.1⟩

/-- C5: for every valid raw command line, the produced Token Sequence
is exactly the per-index narrow conversion of the OS token array: its
length equals the OS-reported count, element `i` is the conversion of
OS token `i` (order preserved), and element 0 is the conversion of the
invoked executable path (OS token 0). -/
theorem token_sequence_matches (env : OSEnv) (ei : EntryInfo) (ws : List WTok)
    (h : env.cmdTokens = some ws)
    (hopt : ei.transparent_options = true ∨
      (ei.positional_usage.isSome ∧ ei.positional_options.isSome)) :
    (parse_launch_arguments env ei).1 = .ok (ws.map (narrowToken env)) ∧
    (ws.map (narrowToken env)).length = ws.length ∧
    (∀ i, (ws.map (narrowToken env)).get? i = (ws.get? i).map (narrowToken env)) ∧
    ∀ exe rest, ws = exe :: rest →
      (ws.map (narrowToken env)).head? = some (narrowToken env exe) := by
  refine ⟨parse_ok_of env ei ws h hopt, by simp, fun i => ?_,
    fun exe rest hws => ?_⟩
  · simp [List.get?_eq_getElem?, List.getElem?_map]
  · subst hws
    simp

/-- Witness for C5 at the concrete healthy environment. -/
theorem token_sequence_matches_witness :
    (parse_launch_arguments envOk eiStd).1 =
      .ok ([[112, 46, 101], [45, 45, 102]].map (narrowToken envOk)) :=
  (token_sequence_matches envOk eiStd [[112, 46, 101], [45, 45, 102]] rfl
    (Or.inr ⟨by decide, by decide⟩)).1

/-- C7: on every non-fatal path (arguments marshalled, optionals
satisfied, AVX present), `Main` invokes the entry point exactly once,
passes it the final Token Sequence, and returns its value unmodified. -/
theorem entry_point_exact (cv : Cvars) (env : OSEnv) (ei : EntryInfo)
    (ws : List WTok)
    (h : env.cmdTokens = some ws)
    (hopt : ei.transparent_options = true ∨
      (ei.positional_usage.isSome ∧ ei.positional_options.isSome))
    (havx : env.cpuHasAVX = true) :
    (Main cv env ei).outcome = .exit (ei.entry_point (ws.map (narrowToken env))) ∧
    (Main cv env ei).trace.countP isEntryCall = 1 ∧
    Event.entryCall (ws.map (narrowToken env)) ∈ (Main cv env ei).trace := by
  rcases hpp : parse_launch_arguments env ei with ⟨res, pev⟩
  have h1 := parse_ok_of env ei ws h hopt
  rw [hpp] at h1
  subst h1
  have hpev : pev.countP isEntryCall = 0 := by
    have h2 := parse_events_countP env ei isEntryCall rfl rfl
    rwa [hpp] at h2
  rw [main_parse_ok_avx cv env ei _ pev hpp havx]
  refine ⟨rfl, ?_, ?_⟩
  · by_cases hec : cv.enable_console <;> by_cases hfr : cv.win32_high_freq <;>
      simp [hec, hfr, List.countP_append, List.countP_cons, List.countP_nil,
        hpev, attach_events_countP env isEntryCall rfl rfl rfl rfl,
        timer_events_countP env isEntryCall (fun _ _ _ => rfl) (fun _ => rfl),
        isEntryCall]
  · simp

/-- Witness for C7 at the concrete healthy environment: the entry point
returns the token count 2, and that is the process exit code. -/
theorem entry_point_exact_witness :
    (Main defaultCvars envOk eiStd).outcome = .exit 2 ∧
    (Main defaultCvars envOk eiStd).trace.countP isEntryCall = 1 := by
  have h := entry_point_exact defaultCvars envOk eiStd
    [[112, 46, 101], [45, 45, 102]] rfl (Or.inr ⟨by decide, by decide⟩) rfl
  exact ⟨by rw [h.1]; decide, h.2.1⟩

/-- C1: when the CPU lacks AVX (on a run that reached the capability
gate), `Main` reports a user-facing fatal error, returns the distinct
negative exit status -1 (distinct from the argument-marshalling failure
code 1), never invokes the entry point, and runs no timer
negotiation. -/
theorem avx_absent_fatal (cv : Cvars) (env : OSEnv) (ei : EntryInfo)
    (ws : List WTok)
    (h : env.cmdTokens = some ws)
    (hopt : ei.transparent_options = true ∨
      (ei.positional_usage.isSome ∧ ei.positional_options.isSome))
    (havx : env.cpuHasAVX = false) :
    (Main cv env ei).outcome = .exit (-1) ∧
    (-1 : Int) ≠ (1 : Int) ∧
    Event.fatalReport fatalAvxMsg ∈ (Main cv env ei).trace ∧
    (Main cv env ei).trace.countP isEntryCall = 0 ∧
    (Main cv env ei).trace.countP isTimerEvent = 0 := by
  rcases hpp : parse_launch_arguments env ei with ⟨res, pev⟩
  have h1 := parse_ok_of env ei ws h hopt
  rw [hpp] at h1
  subst h1
  have hpev1 : pev.countP isEntryCall = 0 := by
    have h2 := parse_events_countP env ei isEntryCall rfl rfl
    rwa [hpp] at h2
  have hpev2 : pev.countP isTimerEvent = 0 := by
    have h2 := parse_events_countP env ei isTimerEvent rfl rfl
    rwa [hpp] at h2
  rw [main_parse_ok_noavx cv env ei _ pev hpp havx]
  refine ⟨rfl, by decide, ?_, ?_, ?_⟩
  · simp
  · by_cases hec : cv.enable_console <;>
      simp [hec, List.countP_append, List.countP_cons, List.countP_nil, hpev1,
        attach_events_countP env isEntryCall rfl rfl rfl rfl, isEntryCall]
  · by_cases hec : cv.enable_console <;>
      simp [hec, List.countP_append, List.countP_cons, List.countP_nil, hpev2,
        attach_events_countP env isTimerEvent rfl rfl rfl rfl, isTimerEvent]

/-- Witness for C1 at a concrete environment lacking AVX. -/
theorem avx_absent_fatal_witness :
    (Main defaultCvars { envOk with cpuHasAVX := false } eiStd).outcome =
      .exit (-1) ∧
    (Main defaultCvars { envOk with cpuHasAVX := false } eiStd).trace.countP
      isEntryCall = 0 := by
  have h := avx_absent_fatal defaultCvars { envOk with cpuHasAVX := false }
    eiStd [[112, 46, 101], [45, 45, 102]] rfl (Or.inr ⟨by decide, by decide⟩) rfl
  exact ⟨h.1, h.2.2.2.1⟩

/-- C9: timer resolution negotiation runs only under `win32_high_freq`
(whose `DEFINE_bool` default is `true`); if either NT facility lookup
fails, `RequestHighPerformance` returns silently with no event and no
error; otherwise it queries the minimum/maximum/current resolutions and
then requests the maximum (finest) one process-wide. -/
theorem timer_negotiation (cv : Cvars) (env : OSEnv) (ei : EntryInfo) :
    defaultCvars.win32_high_freq = true ∧
    (cv.win32_high_freq = false →
      (Main cv env ei).trace.countP isTimerEvent = 0) ∧
    ((env.ntQueryAvail = false ∨ env.ntSetAvail = false) →
      RequestHighPerformance env = []) ∧
    (env.ntQueryAvail = true → env.ntSetAvail = true →
      RequestHighPerformance env =
        [.timerQuery env.timerMin env.timerMax env.timerCur,
         .timerSet env.timerMax]) := by
  refine ⟨rfl, fun hfr => ?_, fun hna => ?_, fun hq hs => ?_⟩
  · rcases hpp : parse_launch_arguments env ei with ⟨res, pev⟩
    have hpev : pev.countP isTimerEvent = 0 := by
      have h2 := parse_events_countP env ei isTimerEvent rfl rfl
      rwa [hpp] at h2
    rcases res with e | args
    · cases e
      · rw [main_argvNull_form cv env ei pev hpp]
        exact hpev
      · rw [main_panic_form cv env ei pev hpp]
        exact hpev
    · by_cases havx : env.cpuHasAVX = true
      · rw [main_parse_ok_avx cv env ei args pev hpp havx]
        by_cases hec : cv.enable_console <;>
          simp [hec, hfr, List.countP_append, List.countP_cons,
            List.countP_nil, hpev,
            attach_events_countP env isTimerEvent rfl rfl rfl rfl, isTimerEvent]
      · rw [main_parse_ok_noavx cv env ei args pev hpp (by simpa using havx)]
        by_cases hec : cv.enable_console <;>
          simp [hec, List.countP_append, List.countP_cons, List.countP_nil,
            hpev, attach_events_countP env isTimerEvent rfl rfl rfl rfl,
            isTimerEvent]
  · rcases hna with hna | hna <;> simp [RequestHighPerformance, hna]
  · simp [RequestHighPerformance, hq, hs]

/-- Witness for C9: with both facilities present the query/set pair is
emitted with the finest resolution requested; with a missing facility
nothing happens; with `win32_high_freq` off no timer event occurs. -/
theorem timer_negotiation_witness :
    RequestHighPerformance envOk =
      [.timerQuery 156250 5000 156250, .timerSet 5000] ∧
    RequestHighPerformance { envOk with ntSetAvail := false } = [] ∧
    (Main { defaultCvars with win32_high_freq := false } envOk eiStd).trace.countP
      isTimerEvent = 0 :=
  ⟨(timer_negotiation defaultCvars envOk eiStd).2.2.2 rfl rfl,
   (timer_negotiation defaultCvars { envOk with ntSetAvail := false }
     eiStd).2.2.1 (Or.inr rfl),
   (timer_negotiation { defaultCvars with win32_high_freq := false } envOk
     eiStd).2.1 rfl⟩

/-- C10: with a parsed command line in hand, if `transparent_options`
is unset, `parse_launch_arguments` dereferences both positional
optionals, so the run panics (the bootstrap aborts) exactly when either
optional is empty; if `transparent_options` is set, option parsing is
bypassed and empty optionals are harmless (never a panic). -/
theorem optional_dereference (cv : Cvars) (env : OSEnv) (ei : EntryInfo)
    (ws : List WTok) (h : env.cmdTokens = some ws) :
    (ei.transparent_options = false →
      ((parse_launch_arguments env ei).1 = .error .optionalPanic ↔
        (ei.positional_usage = none ∨ ei.positional_options = none)) ∧
      ((Main cv env ei).outcome = .panic ↔
        (ei.positional_usage = none ∨ ei.positional_options = none))) ∧
    (ei.transparent_options = true →
      (parse_launch_arguments env ei).1 = .ok (ws.map (narrowToken env)) ∧
      (Main cv env ei).outcome ≠ .panic) := by
  constructor
  · intro ht
    by_cases hno : ei.positional_usage = none ∨ ei.positional_options = none
    · have hp := parse_full_panic env ei ws h ht hno
      refine ⟨?_, ?_⟩
      · rw [hp]
        simpa using hno
      · rw [main_panic_form cv env ei _ hp]
        simpa using hno
    · push_neg at hno
      rcases hu' : ei.positional_usage with _ | u
      · exact absurd hu' hno.1
      · rcases ho' : ei.positional_options with _ | o
        · exact absurd ho' (hno.2)
        · have hp := parse_full_opts env ei ws u o h ht hu' ho'
          refine ⟨?_, ?_⟩
          · rw [hp]
            simp [hu', ho']
          · have := main_ok_not_panic cv env ei _ _ hp
            simp [this, hu', ho']
  · intro ht
    have hp := parse_full_transparent env ei ws h ht
    exact ⟨by rw [hp], main_ok_not_panic cv env ei _ _ hp⟩

/-- Witness for C10: a descriptor with `transparent_options` unset and
an empty usage optional makes the run panic, while the same descriptor
with `transparent_options` set completes normally. -/
theorem optional_dereference_witness :
    (Main defaultCvars envOk { eiStd with positional_usage := none }).outcome =
      .panic ∧
    (Main defaultCvars envOk
      { eiStd with positional_usage := none,
                   transparent_options := true }).outcome ≠ .panic :=
  ⟨((optional_dereference defaultCvars envOk
      { eiStd with positional_usage := none }
      [[112, 46, 101], [45, 45, 102]] rfl).1 rfl).2.mpr (Or.inl rfl),
   ((optional_dereference defaultCvars envOk
      { eiStd with positional_usage := none, transparent_options := true }
      [[112, 46, 101], [45, 45, 102]] rfl).2 rfl).2⟩

/-- C2 counterexample: on the run where the CPU lacks AVX, logging
initialization ran, yet logging shutdown does not run before `Main`
returns — refuting the claim that shutdown runs once on every path
where initialization ran, including the capability-failure path. -/
theorem logging_shutdown_claim_fails :
    ¬ (1 ≤ (Main defaultCvars { envOk with cpuHasAVX := false }
          eiStd).trace.countP isLogInit →
       (Main defaultCvars { envOk with cpuHasAVX := false }
          eiStd).trace.countP isLogShutdown = 1) := by
  decide

/-- C2 amended: once the capability check passes, logging shutdown runs
exactly once before `Main` returns, whatever integer the entry point
returns; on the capability-failure path logging initialization ran but
shutdown does not run within `Main`. -/
theorem logging_shutdown_amended (cv : Cvars) (env : OSEnv) (ei : EntryInfo)
    (ws : List WTok)
    (h : env.cmdTokens = some ws)
    (hopt : ei.transparent_options = true ∨
      (ei.positional_usage.isSome ∧ ei.positional_options.isSome)) :
    (env.cpuHasAVX = true →
      (Main cv env ei).trace.countP isLogInit = 1 ∧
      (Main cv env ei).trace.countP isLogShutdown = 1) ∧
    (env.cpuHasAVX = false →
      (Main cv env ei).trace.countP isLogInit = 1 ∧
      (Main cv env ei).trace.countP isLogShutdown = 0) := by
  rcases hpp : parse_launch_arguments env ei with ⟨res, pev⟩
  have h1 := parse_ok_of env ei ws h hopt
  rw [hpp] at h1
  subst h1
  have hpi : pev.countP isLogInit = 0 := by
    have h2 := parse_events_countP env ei isLogInit rfl rfl
    rwa [hpp] at h2
  have hps : pev.countP isLogShutdown = 0 := by
    have h2 := parse_events_countP env ei isLogShutdown rfl rfl
    rwa [hpp] at h2
  constructor
  · intro havx
    rw [main_parse_ok_avx cv env ei _ pev hpp havx]
    constructor <;>
      by_cases hec : cv.enable_console <;> by_cases hfr : cv.win32_high_freq <;>
        simp [hec, hfr, List.countP_append, List.countP_cons, List.countP_nil,
          hpi, hps,
          attach_events_countP env isLogInit rfl rfl rfl rfl,
          attach_events_countP env isLogShutdown rfl rfl rfl rfl,
          timer_events_countP env isLogInit (fun _ _ _ => rfl) (fun _ => rfl),
          timer_events_countP env isLogShutdown (fun _ _ _ => rfl) (fun _ => rfl),
          isLogInit, isLogShutdown]
  · intro havx
    rw [main_parse_ok_noavx cv env ei _ pev hpp havx]
    constructor <;>
      by_cases hec : cv.enable_console <;>
        simp [hec, List.countP_append, List.countP_cons, List.countP_nil,
          hpi, hps,
          attach_events_countP env isLogInit rfl rfl rfl rfl,
          attach_events_countP env isLogShutdown rfl rfl rfl rfl,
          isLogInit, isLogShutdown]

/-- Witness for the amended C2: shutdown runs once on the healthy run
and zero times on the AVX-failure run. -/
theorem logging_shutdown_amended_witness :
    (Main defaultCvars envOk eiStd).trace.countP isLogShutdown = 1 ∧
    (Main defaultCvars { envOk with cpuHasAVX := false }
      eiStd).trace.countP isLogShutdown = 0 :=
  ⟨((logging_shutdown_amended defaultCvars envOk eiStd
      [[112, 46, 101], [45, 45, 102]] rfl
      (Or.inr ⟨by decide, by decide⟩)).1 rfl).2,
   ((logging_shutdown_amended defaultCvars { envOk with cpuHasAVX := false }
      eiStd [[112, 46, 101], [45, 45, 102]] rfl
      (Or.inr ⟨by decide, by decide⟩)).2 rfl).2⟩

/-- C3 counterexample: with `enable_console` at its default `false`, the
flag read by `has_console_attached()` is `true` at the end of a run —
its initializer at line 37 is `true` — refuting the claim that it
remains unset/false. -/
theorem console_flag_claim_fails :
    ¬ ((Main defaultCvars envOk eiStd).has_console_attached = false) := by
  decide

/-- C3 amended: when `enable_console` is `false` (its default),
`AttachConsole` is never invoked, so the flag read by
`has_console_attached()` is never written and keeps its initial value
`true` for the whole process lifetime, regardless of the launch
environment. -/
theorem console_flag_amended (cv : Cvars) (env : OSEnv) (ei : EntryInfo)
    (h : cv.enable_console = false) :
    defaultCvars.enable_console = false ∧
    (Main cv env ei).has_console_attached = true ∧
    (Main cv env ei).trace.countP isConsoleEvent = 0 := by
  rcases hpp : parse_launch_arguments env ei with ⟨res, pev⟩
  have hpc : pev.countP isConsoleEvent = 0 := by
    have h2 := parse_events_countP env ei isConsoleEvent rfl rfl
    rwa [hpp] at h2
  have key : (Main cv env ei).has_console_attached = true ∧
      (Main cv env ei).trace.countP isConsoleEvent = 0 := by
    rcases res with e | args
    · cases e
      · rw [main_argvNull_form cv env ei pev hpp]
        exact ⟨rfl, hpc⟩
      · rw [main_panic_form cv env ei pev hpp]
        exact ⟨rfl, hpc⟩
    · by_cases havx : env.cpuHasAVX = true
      · rw [main_parse_ok_avx cv env ei args pev hpp havx]
        by_cases hfr : cv.win32_high_freq <;>
          simp [h, hfr, List.countP_append, List.countP_cons, List.countP_nil,
            hpc,
            timer_events_countP env isConsoleEvent (fun _ _ _ => rfl)
              (fun _ => rfl),
            isConsoleEvent]
      · rw [main_parse_ok_noavx cv env ei args pev hpp (by simpa using havx)]
        simp [h, List.countP_append, List.countP_cons, List.countP_nil, hpc,
          isConsoleEvent]
  exact ⟨rfl, key.1, key.2⟩

/-- Witness for the amended C3 at the concrete healthy environment. -/
theorem console_flag_amended_witness :
    (Main defaultCvars envOk eiStd).has_console_attached = true :=
  (console_flag_amended defaultCvars envOk eiStd rfl).2.1

end Xenia
